import Mathlib

/-!
Shallow embedding of sentry/search/django/backend.py (Django search backend).

The data model (Group, Event, GroupSubscription, GroupTagValue) follows the
spec's section 3; databases are explicit lists of rows, querysets are lists,
and Django filter chains become List.filter chains.  Python exceptions
(NotImplementedError, AssertionError, KeyError, AttributeError) become an
explicit error type threaded through Except.
-/

namespace Sentry

/-- Python exceptions that the backend can raise. -/
inductive Err where
  | notImplemented
  | assertionError
  | keyError (key : String)
  | attributeError (name : String)
deriving DecidableEq, Repr

/-- Issue status enum (sentry.models.GroupStatus), per spec section 3. -/
inductive GroupStatus where
  | unresolved
  | resolved
  | ignored
  | pending_deletion
  | deletion_in_progress
  | pending_merge
deriving DecidableEq, Repr

/-- Tag constraint value: either the ANY presence marker or a concrete value. -/
inductive TagVal where
  | ANY
  | val (s : String)
deriving DecidableEq, Repr

/-- First-release argument: the EMPTY sentinel (explicitly no release) or a
release version string. -/
inductive FirstRelease where
  | EMPTY
  | version (v : String)
deriving DecidableEq, Repr

/-- Release reference stored on a Group (organization scoping plus version). -/
structure Release where
  organization_id : Nat
  version : String
deriving DecidableEq, Repr

/-- Project scope: identity and owning organization. -/
structure Project where
  id : Nat
  organization_id : Nat
deriving DecidableEq, Repr

/-- Issue row (sentry.models.Group).  Timestamps are modelled as naturals.
The bookmark and assignee relations are carried as per-group lists of
(project_id, user_id) rows. -/
structure Group where
  id : Nat
  project_id : Nat
  status : GroupStatus
  message : String
  culprit : String
  first_seen : Nat
  last_seen : Nat
  active_at : Nat
  times_seen : Nat
  first_release : Option Release
  bookmarks : List (Nat × Nat)
  assignees : List (Nat × Nat)
deriving DecidableEq, Repr

/-- Event row (sentry.models.Event): used only for the date-window filter. -/
structure Event where
  project_id : Nat
  group_id : Nat
  datetime : Nat
  message : String
deriving DecidableEq, Repr

/-- Subscription row (sentry.models.GroupSubscription). -/
structure GroupSubscription where
  project_id : Nat
  group_id : Nat
  user_id : Nat
  is_active : Bool
deriving DecidableEq, Repr

/-- Tag-value row (sentry.tagstore.models.GroupTagValue), composite key
(project_id, group_id, key, value) with per-pair aggregates. -/
structure GroupTagValue where
  project_id : Nat
  group_id : Nat
  key : String
  value : String
  first_seen : Nat
  last_seen : Nat
  times_seen : Nat
deriving DecidableEq, Repr

/-- External context of one search call: the backing stores, the active engine
string (get_db_engine of the default alias), the database aliases the router
reports for Group and Event reads, and the tag-resolution collaborator
(tagstore.get_group_ids_for_search_filter), which returns the matching group
ids for a project / environment / tag map. -/
structure SearchCtx where
  groups : List Group
  events : List Event
  subscriptions : List GroupSubscription
  engine : String
  groupDb : String
  eventDb : String
  tagMatches : Nat → Option Nat → List (String × TagVal) → List Nat

/-- Python truthiness of an optional string argument (None and the empty
string are falsy). -/
def truthyStr : Option String → Bool
  | none => false
  | some s => !s.isEmpty

/-- Python truthiness of the first_release argument: the EMPTY sentinel object
is truthy, a version string is truthy iff nonempty. -/
def truthyFirstRelease : Option FirstRelease → Bool
  | none => false
  | some FirstRelease.EMPTY => true
  | some (FirstRelease.version v) => !v.isEmpty

/-- Substring test on character lists (model of a SQL LIKE-style containment
over the lowered text). -/
def hasSubstr (pat : List Char) : List Char → Bool
  | [] => pat.isPrefixOf []
  | c :: rest => pat.isPrefixOf (c :: rest) || hasSubstr pat rest

/-- Case-insensitive substring match, modelling Django's icontains lookup. -/
def icontains (hay pat : String) : Bool :=
  hasSubstr pat.toLower.data hay.toLower.data

/-- Python str.startswith, implemented structurally over the character data
(the library startsWith is equivalent but blocks kernel evaluation). -/
def strStartsWith (s pre : String) : Bool := pre.data.isPrefixOf s.data

/-- Membership of a status in the three deletion/merge statuses excluded by
default (GroupStatus.PENDING_DELETION, DELETION_IN_PROGRESS, PENDING_MERGE). -/
def statusBad (s : GroupStatus) : Bool :=
  decide (s = GroupStatus.pending_deletion ∨ s = GroupStatus.deletion_in_progress
    ∨ s = GroupStatus.pending_merge)

/-- Free-text block shared by _build_queryset and find_candidates: message OR
culprit case-insensitive containment, applied only when the query argument is
truthy. -/
def filterFreeText (query : Option String) (queryset : List Group) : List Group :=
  match query with
  | some q => if q.isEmpty then queryset
      else queryset.filter (fun g => icontains g.message q || icontains g.culprit q)
  | none => queryset

/-- Status block shared by _build_queryset and find_candidates: default
exclusion of the three deletion/merge statuses when status is None, exact
equality filter otherwise. -/
def filterStatus (status : Option GroupStatus) (queryset : List Group) : List Group :=
  match status with
  | none => queryset.filter (fun g => !statusBad g.status)
  | some s => queryset.filter (fun g => decide (g.status = s))

/-- Bookmark block: existence of a bookmark row for (project, user). -/
def filterBookmarked (p : Project) (bookmarked_by : Option Nat)
    (queryset : List Group) : List Group :=
  match bookmarked_by with
  | some u => queryset.filter (fun g => g.bookmarks.any (fun b => b.1 == p.id && b.2 == u))
  | none => queryset

/-- Assignment block of _build_queryset: an if / elif pair, so a truthy
assigned_to wins and unassigned is only consulted when assigned_to is absent. -/
def filterAssignedPrimary (p : Project) (assigned_to : Option Nat)
    (unassigned : Option Bool) (queryset : List Group) : List Group :=
  match assigned_to with
  | some u => queryset.filter (fun g => g.assignees.any (fun x => x.1 == p.id && x.2 == u))
  | none =>
    match unassigned with
    | some b => queryset.filter (fun g => g.assignees.isEmpty == b)
    | none => queryset

/-- Subscription block: id IN (active subscriptions of the user in the
project). -/
def filterSubscribed (ctx : SearchCtx) (p : Project) (subscribed_by : Option Nat)
    (queryset : List Group) : List Group :=
  match subscribed_by with
  | some u =>
    let subscribed_ids := (ctx.subscriptions.filter
      (fun s => s.project_id == p.id && s.user_id == u && s.is_active)).map
        (fun s => s.group_id)
    queryset.filter (fun g => decide (g.id ∈ subscribed_ids))
  | none => queryset

/-- Release filter of _build_queryset for a concrete (non-sentinel) version. -/
def filterRelease (p : Project) (v : String) (queryset : List Group) : List Group :=
  queryset.filter (fun g =>
    match g.first_release with
    | some r => r.organization_id == p.organization_id && r.version == v
    | none => false)

/-- Scalar comparison semantics of a Django field lookup built from an
operator ('gt' or 'lt') with an 'e' appended when inclusive (so gte / gt /
lte / lt). -/
inductive ScalarOp where
  | gt
  | lt
deriving DecidableEq, Repr

/-- Meaning of the four generated lookups: gte, gt, lte, lt. -/
def scalarLookup (operator : ScalarOp) (inclusive : Bool) (x v : Nat) : Bool :=
  match operator, inclusive with
  | ScalarOp.gt, true => decide (v ≤ x)
  | ScalarOp.gt, false => decide (v < x)
  | ScalarOp.lt, true => decide (x ≤ v)
  | ScalarOp.lt, false => decide (x < v)

/-- Embedding of add_scalar_filter: filter the queryset by
field__operator[e] = value, the 'e' suffix selecting the inclusive lookup. -/
def add_scalar_filter {α : Type} (queryset : List α) (field : α → Nat)
    (operator : ScalarOp) (value : Nat) (inclusive : Bool) : List α :=
  queryset.filter (fun r => scalarLookup operator inclusive (field r) value)

/-- Range block of _build_queryset: when either bound is present, both present
bounds are collected into one params dict and applied as a conjunction, each
bound translated by its inclusive flag to gte/gt or lte/lt. -/
def rangeFilter {α : Type} (fromv : Option Nat) (fromi : Bool) (tov : Option Nat)
    (toi : Bool) (field : α → Nat) (queryset : List α) : List α :=
  if fromv.isSome || tov.isSome then
    queryset.filter (fun g =>
      (match fromv with
       | some t => if fromi then decide (t ≤ field g) else decide (t < field g)
       | none => true)
      &&
      (match tov with
       | some t => if toi then decide (field g ≤ t) else decide (field g < t)
       | none => true))
  else queryset

/-- Identifier set derived from the Event table: either still a lazy implicit
subquery, or coerced to a concrete list (the Python list(...) call). -/
inductive IdSource where
  | subquery (ids : List Nat)
  | materialized (ids : List Nat)
deriving DecidableEq, Repr

/-- Identifiers carried by either form. -/
def IdSource.ids : IdSource → List Nat
  | IdSource.subquery l => l
  | IdSource.materialized l => l

/-- Date-window block of _build_queryset (source lines 188-207): the events of
the project within the date bounds, with the free-text filter re-applied
against event messages when present. -/
def dateWindowEvents (ctx : SearchCtx) (p : Project) (query : Option String)
    (date_from : Option Nat) (date_from_inclusive : Bool)
    (date_to : Option Nat) (date_to_inclusive : Bool) : List Event :=
  let event_queryset := ctx.events.filter (fun e =>
    e.project_id == p.id
    && (match date_from with
        | some t => if date_from_inclusive then decide (t ≤ e.datetime) else decide (t < e.datetime)
        | none => true)
    && (match date_to with
        | some t => if date_to_inclusive then decide (e.datetime ≤ t) else decide (e.datetime < t)
        | none => true))
  match query with
  | some q => if q.isEmpty then event_queryset
      else event_queryset.filter (fun e => icontains e.message q)
  | none => event_queryset

/-- Continuation of the date-window block: the distinct group ids of the
windowed events, limited to the first 1000, coerced to a list when Group and
Event are read from different databases or the engine is MySQL. -/
def dateRangeGroupIds (ctx : SearchCtx) (p : Project) (query : Option String)
    (date_from : Option Nat) (date_from_inclusive : Bool)
    (date_to : Option Nat) (date_to_inclusive : Bool) : IdSource :=
  let group_ids := (((dateWindowEvents ctx p query date_from date_from_inclusive
    date_to date_to_inclusive).map (fun e => e.group_id)).dedup).take 1000
  if ctx.groupDb != ctx.eventDb || strStartsWith ctx.engine "mysql" then
    IdSource.materialized group_ids
  else
    IdSource.subquery group_ids

/-- Modelled from the spec: the per-dialect sort-clause tables imported from
sentry.search.django.constants (not part of src/).  Per spec section 4.2 each
table maps exactly the four sort modes (date, priority, new, freq) to a score
expression; the primary dialect supports the composed log-weighted priority
formula, the degraded dialects order by plain columns; an unknown sort_by has
no entry (a KeyError). -/
def SORT_CLAUSES : String → Option String
  | "priority" => some "log(times_seen) * 600 + last_seen::abstime::int"
  | "date" => some "EXTRACT(EPOCH FROM last_seen)"
  | "new" => some "EXTRACT(EPOCH FROM first_seen)"
  | "freq" => some "times_seen"
  | _ => none

/-- Modelled from the spec: SQLite sort-clause table (degraded dialect, plain
column ordering, same four keys). -/
def SQLITE_SORT_CLAUSES : String → Option String
  | "priority" => some "times_seen"
  | "date" => some "last_seen"
  | "new" => some "first_seen"
  | "freq" => some "times_seen"
  | _ => none

/-- Modelled from the spec: MySQL sort-clause table (degraded dialect). -/
def MYSQL_SORT_CLAUSES : String → Option String
  | "priority" => some "times_seen"
  | "date" => some "last_seen"
  | "new" => some "first_seen"
  | "freq" => some "times_seen"
  | _ => none

/-- Modelled from the spec: Oracle sort-clause table (degraded dialect). -/
def ORACLE_SORT_CLAUSES : String → Option String
  | "priority" => some "times_seen"
  | "date" => some "last_seen"
  | "new" => some "first_seen"
  | "freq" => some "times_seen"
  | _ => none

/-- Modelled from the spec: SQL Server sort-clause table (degraded dialect). -/
def MSSQL_SORT_CLAUSES : String → Option String
  | "priority" => some "times_seen"
  | "date" => some "last_seen"
  | "new" => some "first_seen"
  | "freq" => some "times_seen"
  | _ => none

/-- Modelled from the spec: the set of engine strings treated as SQL Server. -/
def MSSQL_ENGINES : List String :=
  ["sql_server.pyodbc", "sqlserver_ado"]

/-- Engine dispatch of _build_queryset (source lines 225-234): pick the sort
clause table by engine string and look up sort_by in it. -/
def engineSortClause (engine : String) (sort_by : String) : Option String :=
  if strStartsWith engine "sqlite" then SQLITE_SORT_CLAUSES sort_by
  else if strStartsWith engine "mysql" then MYSQL_SORT_CLAUSES sort_by
  else if strStartsWith engine "oracle" then ORACLE_SORT_CLAUSES sort_by
  else if MSSQL_ENGINES.contains engine then MSSQL_SORT_CLAUSES sort_by
  else SORT_CLAUSES sort_by

/-- Keyword arguments of DjangoSearchBackend._build_queryset, with the
source's default values. -/
structure BuildArgs where
  query : Option String := none
  status : Option GroupStatus := none
  tags : List (String × TagVal) := []
  bookmarked_by : Option Nat := none
  assigned_to : Option Nat := none
  first_release : Option FirstRelease := none
  sort_by : String := "date"
  unassigned : Option Bool := none
  subscribed_by : Option Nat := none
  age_from : Option Nat := none
  age_from_inclusive : Bool := true
  age_to : Option Nat := none
  age_to_inclusive : Bool := true
  last_seen_from : Option Nat := none
  last_seen_from_inclusive : Bool := true
  last_seen_to : Option Nat := none
  last_seen_to_inclusive : Bool := true
  date_from : Option Nat := none
  date_from_inclusive : Bool := true
  date_to : Option Nat := none
  date_to_inclusive : Bool := true
  active_at_from : Option Nat := none
  active_at_from_inclusive : Bool := true
  active_at_to : Option Nat := none
  active_at_to_inclusive : Bool := true
  times_seen : Option Nat := none
  times_seen_lower : Option Nat := none
  times_seen_lower_inclusive : Bool := true
  times_seen_upper : Option Nat := none
  times_seen_upper_inclusive : Bool := true
  environment_id : Option Nat := none

/-- Stages of _build_queryset after the tag short-circuit: the four range
blocks, the exact times_seen filter, the times_seen bounds, the date-window
restriction, and finally the engine sort-clause lookup (whose KeyError on an
unknown sort_by surfaces here) attaching the sort_value column. -/
def buildAfterTags (ctx : SearchCtx) (p : Project) (a : BuildArgs)
    (queryset : List Group) : Except Err (List Group) :=
  let queryset := rangeFilter a.age_from a.age_from_inclusive a.age_to
    a.age_to_inclusive (fun g => g.first_seen) queryset
  let queryset := rangeFilter a.last_seen_from a.last_seen_from_inclusive
    a.last_seen_to a.last_seen_to_inclusive (fun g => g.last_seen) queryset
  let queryset := rangeFilter a.active_at_from a.active_at_from_inclusive
    a.active_at_to a.active_at_to_inclusive (fun g => g.active_at) queryset
  let queryset :=
    match a.times_seen with
    | some t => queryset.filter (fun g => g.times_seen == t)
    | none => queryset
  let queryset := rangeFilter a.times_seen_lower a.times_seen_lower_inclusive
    a.times_seen_upper a.times_seen_upper_inclusive (fun g => g.times_seen) queryset
  let queryset :=
    if a.date_from.isSome || a.date_to.isSome then
      queryset.filter (fun g => decide (g.id ∈ (dateRangeGroupIds ctx p a.query
        a.date_from a.date_from_inclusive a.date_to a.date_to_inclusive).ids))
    else queryset
  match engineSortClause ctx.engine a.sort_by with
  | some _ => Except.ok queryset
  | none => Except.error (Err.keyError a.sort_by)

/-- Tag stage of _build_queryset: a truthy tags mapping is resolved through
the tagstore collaborator; an empty match set short-circuits to
queryset.none(), a non-empty one becomes an id IN (matches) restriction. -/
def buildAfterRelease (ctx : SearchCtx) (p : Project) (a : BuildArgs)
    (queryset : List Group) : Except Err (List Group) :=
  if a.tags.isEmpty then buildAfterTags ctx p a queryset
  else
    let matchIds := ctx.tagMatches p.id a.environment_id a.tags
    if matchIds.isEmpty then Except.ok []
    else buildAfterTags ctx p a (queryset.filter (fun g => decide (g.id ∈ matchIds)))

/-- Embedding of DjangoSearchBackend._build_queryset: the filter chain in
source order (project, free text, status, bookmarks, assignment if/elif,
subscription), then the first_release block whose EMPTY sentinel returns
queryset.none() immediately, then the tag stage and the remaining stages. -/
def buildQueryset (ctx : SearchCtx) (p : Project) (a : BuildArgs) :
    Except Err (List Group) :=
  let queryset := ctx.groups.filter (fun g => g.project_id == p.id)
  let queryset := filterFreeText a.query queryset
  let queryset := filterStatus a.status queryset
  let queryset := filterBookmarked p a.bookmarked_by queryset
  let queryset := filterAssignedPrimary p a.assigned_to a.unassigned queryset
  let queryset := filterSubscribed ctx p a.subscribed_by queryset
  if truthyFirstRelease a.first_release then
    if a.first_release = some FirstRelease.EMPTY then Except.ok []
    else
      let queryset :=
        match a.first_release with
        | some (FirstRelease.version v) => filterRelease p v queryset
        | _ => queryset
      buildAfterRelease ctx p a queryset
  else buildAfterRelease ctx p a queryset

/-- Keyword arguments of EnvironmentDjangoSearchBackend.find_candidates, with
the source's default values. -/
structure FindArgs where
  query : Option String := none
  status : Option GroupStatus := none
  bookmarked_by : Option Nat := none
  assigned_to : Option Nat := none
  unassigned : Option Bool := none
  subscribed_by : Option Nat := none
  active_at_from : Option Nat := none
  active_at_from_inclusive : Bool := true
  active_at_to : Option Nat := none
  active_at_to_inclusive : Bool := true
  first_release : Option String := none

/-- Assignment blocks of find_candidates: two independent if-statements, each
asserting that the other argument is None before filtering, so supplying both
fails the first assertion. -/
def assignedStep (p : Project) (assigned_to : Option Nat) (unassigned : Option Bool)
    (queryset : List Group) : Except Err (List Group) :=
  match assigned_to, unassigned with
  | some _, some _ => Except.error Err.assertionError
  | some u, none =>
    Except.ok (queryset.filter (fun g => g.assignees.any (fun x => x.1 == p.id && x.2 == u)))
  | none, some b => Except.ok (queryset.filter (fun g => g.assignees.isEmpty == b))
  | none, none => Except.ok queryset

/-- Embedding of EnvironmentDjangoSearchBackend.find_candidates: the tag-free
candidate phase.  It shares the free-text, status, bookmark and subscription
blocks with _build_queryset, applies the active_at bounds through
add_scalar_filter, raises NotImplementedError for a non-None first_release,
and returns the set of matching group ids. -/
def findCandidates (ctx : SearchCtx) (p : Project) (environment_id : Nat)
    (a : FindArgs) : Except Err (List Nat) :=
  let queryset := ctx.groups.filter (fun g => g.project_id == p.id)
  let queryset := filterFreeText a.query queryset
  let queryset := filterStatus a.status queryset
  let queryset := filterBookmarked p a.bookmarked_by queryset
  match assignedStep p a.assigned_to a.unassigned queryset with
  | Except.error e => Except.error e
  | Except.ok queryset =>
    let queryset := filterSubscribed ctx p a.subscribed_by queryset
    let queryset :=
      match a.active_at_from with
      | some t => add_scalar_filter queryset (fun g => g.active_at) ScalarOp.gt t
          a.active_at_from_inclusive
      | none => queryset
    let queryset :=
      match a.active_at_to with
      | some t => add_scalar_filter queryset (fun g => g.active_at) ScalarOp.lt t
          a.active_at_to_inclusive
      | none => queryset
    if a.first_release.isSome then Except.error Err.notImplemented
    else Except.ok ((queryset.map (fun g => g.id)).dedup)


/-- Dialect table of sort_strategies (source lines 283-288): score expression
of the synthesized statement's sort_key column, per sort mode; an unknown
mode is a KeyError. -/
def sort_strategies : String → Option String
  | "priority" => some "log(times_seen) * 600 + last_seen::abstime::int"
  | "date" => some "last_seen"
  | "new" => some "first_seen"
  | "freq" => some "times_seen"
  | _ => none

/-- Tag store context of filter_candidates: the GroupTagValue table and the
answer of the is_postgres() dialect check. -/
structure TagCtx where
  rows : List GroupTagValue
  isPostgres : Bool

/-- Modelled from the spec: the tag-value table name
(GroupTagValue._meta.db_table), whose model lives in sentry.tagstore.models
outside src/. -/
def grouptagvalue_table : String := "sentry_grouptagvalue"

/-- Python dict.pop(k): remove and return the entry for k, or fail.  On an
association list this removes the first (for a dict: only) binding of k. -/
def popKey (tags : List (String × TagVal)) (k : String) :
    Option (TagVal × List (String × TagVal)) :=
  match tags with
  | [] => none
  | (k', v) :: rest =>
    if k' = k then some (v, rest)
    else
      match popKey rest k with
      | some (r, l) => some (r, (k', v) :: l)
      | none => none

/-- Keyword arguments of EnvironmentDjangoSearchBackend.filter_candidates,
with the source's default values (tags is passed as a mapping by callers;
the empty list stands for an empty mapping). -/
structure FilterArgs where
  candidates : Option (List Nat) := none
  tags : List (String × TagVal) := []
  age_from : Option Nat := none
  age_from_inclusive : Bool := true
  age_to : Option Nat := none
  age_to_inclusive : Bool := true
  last_seen_from : Option Nat := none
  last_seen_from_inclusive : Bool := true
  last_seen_to : Option Nat := none
  last_seen_to_inclusive : Bool := true
  times_seen : Option Nat := none
  times_seen_lower : Option Nat := none
  times_seen_lower_inclusive : Bool := true
  times_seen_upper : Option Nat := none
  times_seen_upper_inclusive : Bool := true
  sort_by : String := "date"

/-- Equality of a tag-value column against the popped environment argument
(the ANY marker is never equal to a stored string value). -/
def tagValEq (v : TagVal) (s : String) : Bool :=
  match v with
  | TagVal.val x => x == s
  | TagVal.ANY => false

/-- Base tag-value queryset of filter_candidates (source lines 474-503): rows
of the project with key environment and the popped environment value,
optionally restricted to the candidate ids, then the age and last_seen bounds
through add_scalar_filter. -/
def fcBaseQueryset (tctx : TagCtx) (p : Project) (env : TagVal) (a : FilterArgs) :
    List GroupTagValue :=
  let queryset := tctx.rows.filter (fun r =>
    r.project_id == p.id && r.key == "environment" && tagValEq env r.value)
  let queryset :=
    match a.candidates with
    | some cs => queryset.filter (fun r => decide (r.group_id ∈ cs))
    | none => queryset
  let queryset :=
    match a.age_from with
    | some t => add_scalar_filter queryset (fun r => r.first_seen) ScalarOp.gt t
        a.age_from_inclusive
    | none => queryset
  let queryset :=
    match a.age_to with
    | some t => add_scalar_filter queryset (fun r => r.first_seen) ScalarOp.lt t
        a.age_to_inclusive
    | none => queryset
  let queryset :=
    match a.last_seen_from with
    | some t => add_scalar_filter queryset (fun r => r.last_seen) ScalarOp.gt t
        a.last_seen_from_inclusive
    | none => queryset
  match a.last_seen_to with
  | some t => add_scalar_filter queryset (fun r => r.last_seen) ScalarOp.lt t
      a.last_seen_to_inclusive
  | none => queryset

/-- Times-seen bound filters of filter_candidates (source lines 508-522),
applied after the exact times_seen attribute failure point. -/
def fcTimesSeenBounds (a : FilterArgs) (queryset : List GroupTagValue) :
    List GroupTagValue :=
  let queryset :=
    match a.times_seen_lower with
    | some t => add_scalar_filter queryset (fun r => r.times_seen) ScalarOp.gt t
        a.times_seen_lower_inclusive
    | none => queryset
  match a.times_seen_upper with
  | some t => add_scalar_filter queryset (fun r => r.times_seen) ScalarOp.lt t
      a.times_seen_upper_inclusive
  | none => queryset

/-- Partition step (source lines 549-553): keys whose constraint is the ANY
presence marker, in mapping order. -/
def presenceTags (tags : List (String × TagVal)) : List String :=
  (tags.filter (fun kv => decide (kv.2 = TagVal.ANY))).map (fun kv => kv.1)

/-- Partition step: the equality constraints (key, value), in mapping order. -/
def specificTags (tags : List (String × TagVal)) : List (String × String) :=
  tags.filterMap (fun kv =>
    match kv.2 with
    | TagVal.val v => some (kv.1, v)
    | TagVal.ANY => none)

/-- Decimal rendering of a counter value, as Python str.format produces it. -/
def digitChar (d : Nat) : Char := Char.ofNat (48 + d)

/-- Decimal digit characters of n, most significant first. -/
def natToStringAux (n : Nat) : List Char :=
  if h : n < 10 then [digitChar n]
  else natToStringAux (n / 10) ++ [digitChar (n % 10)]
decreasing_by
  exact Nat.div_lt_self (by omega) (by omega)

/-- Decimal string of n. -/
def natToString (n : Nat) : String := String.mk (natToStringAux n)

/-- Alias of the i-th LATERAL presence clause (lateral_alias_sequence). -/
def lateralAlias (i : Nat) : String := "grouptagvalue_lateral_" ++ natToString i

/-- Alias of the i-th chained INNER JOIN (join_alias_sequence). -/
def joinAlias (i : Nat) : String := "grouptagvalue_join_" ++ natToString i

/-- All table aliases appearing in the synthesized statement: the CTE name
plus the lateral and join aliases, in order of appearance. -/
def statementAliases (nPresence nJoin : Nat) : List String :=
  "candidates" :: ((List.range nPresence).map lateralAlias
    ++ (List.range nJoin).map joinAlias)

/-- Text of one LATERAL presence clause (source lines 559-566); the key goes
into the parameter list, only the alias counter varies the text. -/
def lateralQueryText (table : String) (i : Nat) : String :=
  "LATERAL (SELECT * FROM " ++ table
    ++ " WHERE group_id = candidates.group_id AND key = %s LIMIT 1) as "
    ++ lateralAlias i

/-- Lateral clause texts for nPresence presence constraints. -/
def lateralQueries (table : String) (nPresence : Nat) : List String :=
  (List.range nPresence).map (fun i => lateralQueryText table i)

/-- Alias the i-th INNER JOIN correlates against: the previous join alias, or
the candidate set for the first join (current_table_alias chaining). -/
def joinPreviousAlias (i : Nat) : String :=
  match i with
  | 0 => "candidates"
  | j + 1 => joinAlias j

/-- Text of one chained INNER JOIN (source lines 568-577). -/
def joinConditionText (table : String) (i : Nat) : String :=
  "INNER JOIN " ++ table ++ " " ++ joinAlias i ++ " ON " ++ joinPreviousAlias i
    ++ ".group_id = " ++ joinAlias i ++ ".group_id"

/-- Join condition texts for nJoin equality constraints. -/
def joinConditions (table : String) (nJoin : Nat) : List String :=
  (List.range nJoin).map (fun i => joinConditionText table i)

/-- Text of one WHERE conjunct (source lines 578-580); key and value go into
the parameter list. -/
def whereConditionText (i : Nat) : String :=
  "(" ++ joinAlias i ++ ".key = %s AND " ++ joinAlias i ++ ".value = %s)"

/-- WHERE conjunct texts for nJoin equality constraints. -/
def whereConditions (nJoin : Nat) : List String :=
  (List.range nJoin).map whereConditionText

/-- Bound parameter of the synthesized statement. -/
inductive SqlParam where
  | int (n : Nat)
  | str (s : String)
deriving DecidableEq, Repr

/-- Parameter placeholder list for an IN clause of n values. -/
def placeholderList (n : Nat) : String :=
  String.intercalate ", " ((List.range n).map (fun _ => "%s"))

/-- SQL text of one scalar bound condition with its placeholder. -/
def scalarCondSql (column : String) (op : ScalarOp) (inclusive : Bool) : String :=
  " AND " ++ column ++ " "
    ++ (match op, inclusive with
        | ScalarOp.gt, true => ">="
        | ScalarOp.gt, false => ">"
        | ScalarOp.lt, true => "<="
        | ScalarOp.lt, false => "<")
    ++ " %s"

/-- Modelled from the spec: the nested SQL text the ORM compiler
(as_nested_sql, outside src/) produces for the base tag-value queryset.  Per
the spec's injection-safety invariant every literal (project id, the key
'environment', the environment value, candidate ids, scalar bounds) is
emitted as a %s placeholder; only the trusted score expression from
sort_strategies is interpolated. -/
def candidateQueryText (a : FilterArgs) (sortExpr : String) : String :=
  "SELECT group_id, (" ++ sortExpr ++ ") AS sort_key FROM " ++ grouptagvalue_table
  ++ " WHERE project_id = %s AND key = %s AND value = %s"
  ++ (match a.candidates with
      | some cs => " AND group_id IN (" ++ placeholderList cs.length ++ ")"
      | none => "")
  ++ (match a.age_from with
      | some _ => scalarCondSql "first_seen" ScalarOp.gt a.age_from_inclusive
      | none => "")
  ++ (match a.age_to with
      | some _ => scalarCondSql "first_seen" ScalarOp.lt a.age_to_inclusive
      | none => "")
  ++ (match a.last_seen_from with
      | some _ => scalarCondSql "last_seen" ScalarOp.gt a.last_seen_from_inclusive
      | none => "")
  ++ (match a.last_seen_to with
      | some _ => scalarCondSql "last_seen" ScalarOp.lt a.last_seen_to_inclusive
      | none => "")
  ++ (match a.times_seen_lower with
      | some _ => scalarCondSql "times_seen" ScalarOp.gt a.times_seen_lower_inclusive
      | none => "")
  ++ (match a.times_seen_upper with
      | some _ => scalarCondSql "times_seen" ScalarOp.lt a.times_seen_upper_inclusive
      | none => "")

/-- Bound parameter of the popped environment argument. -/
def tagValParam (v : TagVal) : SqlParam :=
  match v with
  | TagVal.val s => SqlParam.str s
  | TagVal.ANY => SqlParam.str "ANY"

/-- Modelled from the spec: the bound parameters of the base queryset, in the
order the conditions appear in its text. -/
def candidateQueryParams (p : Project) (env : TagVal) (a : FilterArgs) :
    List SqlParam :=
  [SqlParam.int p.id, SqlParam.str "environment", tagValParam env]
  ++ (match a.candidates with
      | some cs => cs.map SqlParam.int
      | none => [])
  ++ (match a.age_from with | some t => [SqlParam.int t] | none => [])
  ++ (match a.age_to with | some t => [SqlParam.int t] | none => [])
  ++ (match a.last_seen_from with | some t => [SqlParam.int t] | none => [])
  ++ (match a.last_seen_to with | some t => [SqlParam.int t] | none => [])
  ++ (match a.times_seen_lower with | some t => [SqlParam.int t] | none => [])
  ++ (match a.times_seen_upper with | some t => [SqlParam.int t] | none => [])

/-- Full text of the synthesized statement (source lines 583-598): the CTE,
the chained joins and lateral clauses as FROM items, the ANDed WHERE clause
when equality conditions exist, and the descending sort_key ordering.  The
text depends only on the shape of the call (which optional arguments are
present, the candidate count, the two tag constraint counts), never on the
key or value strings. -/
def fcStatementText (a : FilterArgs) (sortExpr : String) (nPresence nJoin : Nat) :
    String :=
  let from_items := String.intercalate ",\n  "
    ([String.intercalate "\n  "
        ("candidates" :: joinConditions grouptagvalue_table nJoin)]
      ++ lateralQueries grouptagvalue_table nPresence)
  let where_clause :=
    if nJoin == 0 then ""
    else "WHERE " ++ String.intercalate "\n  AND " (whereConditions nJoin)
  "WITH candidates AS (" ++ candidateQueryText a sortExpr ++ ")\n"
  ++ "SELECT candidates.group_id\n"
  ++ "FROM " ++ from_items ++ "\n"
  ++ where_clause ++ "\n"
  ++ "ORDER BY candidates.sort_key DESC;\n"

/-- Full bound parameter list of the synthesized statement (source lines
544-581): base queryset parameters, then one key per presence constraint,
then key and value per equality constraint. -/
def fcStatementParams (p : Project) (env : TagVal) (a : FilterArgs)
    (presence : List String) (specific : List (String × String)) : List SqlParam :=
  candidateQueryParams p env a
  ++ presence.map SqlParam.str
  ++ specific.flatMap (fun kv => [SqlParam.str kv.1, SqlParam.str kv.2])

/-- Rows of the tag-value table matching one equality join for group g: the
join condition correlates group_id (transitively to candidates.group_id) and
the WHERE conjunct fixes key and value. -/
def joinMatches (db : List GroupTagValue) (g : Nat) (kv : String × String) :
    List GroupTagValue :=
  db.filter (fun r => r.group_id == g && r.key == kv.1 && r.value == kv.2)

/-- Lateral presence test for group g: at least one row of the table with
this group id and key (the LIMIT 1 lateral subquery is nonempty). -/
def hasTagKey (db : List GroupTagValue) (g : Nat) (k : String) : Bool :=
  db.any (fun r => r.group_id == g && r.key == k)

/-- Tuples of the chained inner-join product for one candidate row: one list
entry per combination of matching rows of the equality constraints. -/
def joinTuples (db : List GroupTagValue) (g : Nat) :
    List (String × String) → List (List GroupTagValue)
  | [] => [[]]
  | kv :: rest =>
    (joinMatches db g kv).flatMap (fun r => (joinTuples db g rest).map (fun t => r :: t))

/-- Modelled from the spec: the result rows of the synthesized statement under
relational semantics.  Each candidate row is kept once per tuple of the
equality-join product, provided every lateral presence clause finds a row,
and the output is ordered by the candidate row's sort_key descending. -/
def evalStmtRows (db : List GroupTagValue) (base : List GroupTagValue)
    (presence : List String) (specific : List (String × String))
    (sortKeyOf : GroupTagValue → Int) : List GroupTagValue :=
  let joined := base.flatMap (fun c =>
    if presence.all (fun k => hasTagKey db c.group_id k) then
      (joinTuples db c.group_id specific).map (fun _ => c)
    else [])
  joined.mergeSort (fun a b => decide (sortKeyOf b ≤ sortKeyOf a))

/-- Modelled from the spec: the numeric value the database computes for a
score expression of sort_strategies on one tag-value row.  The three column
expressions evaluate to the column; the priority formula is a log-weighted
combination involving a floating-point logarithm, modelled abstractly by an
integer logarithm (no claim in this development depends on its value). -/
def evalSortKey (expr : String) (r : GroupTagValue) : Int :=
  if expr = "last_seen" then (r.last_seen : Int)
  else if expr = "first_seen" then (r.first_seen : Int)
  else if expr = "times_seen" then (r.times_seen : Int)
  else 600 * (Nat.log 2 r.times_seen : Int) + (r.last_seen : Int)

/-- Embedding of EnvironmentDjangoSearchBackend.filter_candidates.  The first
component is the outcome: KeyError when the tags mapping has no environment
entry, AttributeError for a non-None times_seen (the queryset has no
times_seen method), KeyError for an unknown sort_by, NotImplementedError on
any dialect but Postgres, and otherwise the ordered group ids of the
synthesized statement (text fcStatementText, parameters fcStatementParams,
result set evalStmtRows).  The second component is the caller's tags mapping
after the call (dict.pop mutates it). -/
def filterCandidates (tctx : TagCtx) (p : Project) (environment_id : Nat)
    (a : FilterArgs) : Except Err (List Nat) × List (String × TagVal) :=
  match popKey a.tags "environment" with
  | none => (Except.error (Err.keyError "environment"), a.tags)
  | some (env, tags) =>
    let queryset := fcBaseQueryset tctx p env a
    if a.times_seen.isSome then (Except.error (Err.attributeError "times_seen"), tags)
    else
      let queryset := fcTimesSeenBounds a queryset
      match sort_strategies a.sort_by with
      | none => (Except.error (Err.keyError a.sort_by), tags)
      | some sortExpr =>
        if tctx.isPostgres then
          (Except.ok ((evalStmtRows tctx.rows queryset (presenceTags tags)
            (specificTags tags) (fun r => evalSortKey sortExpr r)).map
              (fun r => r.group_id)), tags)
        else (Except.error Err.notImplemented, tags)

/-! Helper notions and reduction lemmas used across the verification. -/

/-- Membership in a queryset result that may instead have raised. -/
def resultMem {α : Type} (e : Except Err (List α)) (x : α) : Prop :=
  match e with
  | Except.ok l => x ∈ l
  | Except.error _ => False

theorem engineSortClause_date (engine : String) :
    (engineSortClause engine "date").isSome := by
  unfold engineSortClause
  split
  · rfl
  · split
    · rfl
    · split
      · rfl
      · split <;> rfl

theorem buildQueryset_status_reduce (ctx : SearchCtx) (p : Project)
    (st : Option GroupStatus) :
    buildQueryset ctx p { status := st } =
      match engineSortClause ctx.engine "date" with
      | some _ => Except.ok (filterStatus st (ctx.groups.filter (fun g => g.project_id == p.id)))
      | none => Except.error (Err.keyError "date") := by
  unfold buildQueryset
  dsimp only [filterFreeText, filterBookmarked, filterAssignedPrimary, filterSubscribed,
    truthyFirstRelease, buildAfterRelease, buildAfterTags, rangeFilter, Option.isSome,
    List.isEmpty]
  simp

theorem findCandidates_status_reduce (ctx : SearchCtx) (p : Project) (e : Nat)
    (st : Option GroupStatus) :
    findCandidates ctx p e { status := st } =
      Except.ok (((filterStatus st (ctx.groups.filter (fun g => g.project_id == p.id))).map
        (fun g => g.id)).dedup) := by
  unfold findCandidates
  dsimp only [assignedStep, filterFreeText, filterBookmarked, filterSubscribed, Option.isSome]
  simp

/-- C5: with status absent, both _build_queryset and find_candidates exclude
exactly the three deletion/merge statuses (and include every other status);
with status supplied they return exactly the issues whose status equals it. -/
theorem c5_status_default_excludes_deletion_and_exact_match
    (ctx : SearchCtx) (p : Project) (g : Group) (s : GroupStatus) (n e : Nat) :
    (resultMem (buildQueryset ctx p { status := none }) g ↔
      (g ∈ ctx.groups ∧ g.project_id = p.id) ∧
        ¬(g.status = GroupStatus.pending_deletion ∨
          g.status = GroupStatus.deletion_in_progress ∨
          g.status = GroupStatus.pending_merge))
    ∧ (resultMem (buildQueryset ctx p { status := some s }) g ↔
        (g ∈ ctx.groups ∧ g.project_id = p.id) ∧ g.status = s)
    ∧ (resultMem (findCandidates ctx p e { status := none }) n ↔
        ∃ g', g' ∈ ctx.groups ∧ g'.project_id = p.id ∧
          ¬(g'.status = GroupStatus.pending_deletion ∨
            g'.status = GroupStatus.deletion_in_progress ∨
            g'.status = GroupStatus.pending_merge) ∧ g'.id = n)
    ∧ (resultMem (findCandidates ctx p e { status := some s }) n ↔
        ∃ g', g' ∈ ctx.groups ∧ g'.project_id = p.id ∧ g'.status = s ∧ g'.id = n) := by
  refine ⟨?_, ?_, ?_, ?_⟩
  · obtain ⟨c, hc⟩ := Option.isSome_iff_exists.mp (engineSortClause_date ctx.engine)
    rw [buildQueryset_status_reduce, hc]
    clear hc
    simp only [resultMem, filterStatus, statusBad, List.mem_filter,
      Bool.not_eq_true', decide_eq_false_iff_not, beq_iff_eq, not_or]
  · obtain ⟨c, hc⟩ := Option.isSome_iff_exists.mp (engineSortClause_date ctx.engine)
    rw [buildQueryset_status_reduce, hc]
    clear hc
    simp only [resultMem, filterStatus, List.mem_filter, decide_eq_true_eq, beq_iff_eq]
  · rw [findCandidates_status_reduce]
    simp only [resultMem, List.mem_dedup, List.mem_map, filterStatus, statusBad,
      List.mem_filter, Bool.not_eq_true', decide_eq_false_iff_not, beq_iff_eq, not_or]
    tauto
  · rw [findCandidates_status_reduce]
    simp only [resultMem, List.mem_dedup, List.mem_map, filterStatus,
      List.mem_filter, decide_eq_true_eq, beq_iff_eq]
    tauto

/-! Concrete fixtures used by counterexamples and witnesses. -/

/-- Concrete project fixture. -/
def projA : Project := { id := 1, organization_id := 1 }

/-- Concrete issue fixture: unresolved issue of project 1 assigned to user 7. -/
def groupA : Group :=
  { id := 1, project_id := 1, status := GroupStatus.unresolved, message := "m",
    culprit := "c", first_seen := 5, last_seen := 10, active_at := 7,
    times_seen := 3, first_release := none, bookmarks := [], assignees := [(1, 7)] }

/-- Concrete search context fixture holding only groupA. -/
def ctxA : SearchCtx :=
  { groups := [groupA], events := [], subscriptions := [],
    engine := "postgresql_psycopg2", groupDb := "default", eventDb := "default",
    tagMatches := fun _ _ _ => [] }

/-- C2 counterexample: with both assigned_to and unassigned supplied,
_build_queryset does not raise the unsupported-combination failure — it
returns a result page (here the issue assigned to user 7, although
unassigned = True was also requested), so the claim fails on the primary
path. -/
theorem c2_counterexample_build_queryset_silently_filters :
    buildQueryset ctxA projA { assigned_to := some 7, unassigned := some true } =
      Except.ok [groupA] := by
  rfl

/-- C2 (amended): supplying both assigned_to and unassigned makes
find_candidates fail its assertion, while _build_queryset silently applies
the assigned_to filter and ignores unassigned (its result is identical to
the call without unassigned). -/
theorem c2_amended_both_assigned_and_unassigned (ctx : SearchCtx) (p : Project)
    (eid : Nat) (a : BuildArgs) (f : FindArgs)
    (ha : a.assigned_to.isSome) (hu : a.unassigned.isSome)
    (hfa : f.assigned_to.isSome) (hfu : f.unassigned.isSome) :
    buildQueryset ctx p a = buildQueryset ctx p { a with unassigned := none }
    ∧ findCandidates ctx p eid f = Except.error Err.assertionError := by
  constructor
  · obtain ⟨u, hu1⟩ := Option.isSome_iff_exists.mp ha
    unfold buildQueryset buildAfterRelease buildAfterTags
    rw [hu1]
    dsimp only [filterAssignedPrimary]
  · obtain ⟨x, hx⟩ := Option.isSome_iff_exists.mp hfa
    obtain ⟨y, hy⟩ := Option.isSome_iff_exists.mp hfu
    unfold findCandidates
    rw [hx, hy]
    dsimp only [assignedStep]

/-- C2 witness: the amended statement at a concrete input. -/
theorem c2_amended_both_assigned_and_unassigned_witness :
    buildQueryset ctxA projA { assigned_to := some 7, unassigned := some true } =
      buildQueryset ctxA projA
        { ({ assigned_to := some 7, unassigned := some true } : BuildArgs) with
          unassigned := none }
    ∧ findCandidates ctxA projA 1 { assigned_to := some 7, unassigned := some true } =
      Except.error Err.assertionError :=
  c2_amended_both_assigned_and_unassigned ctxA projA 1 _ _ rfl rfl rfl rfl

/-- Python dict lookup on the association-list model of a tags mapping. -/
def lookupKey (tags : List (String × TagVal)) (k : String) : Option TagVal :=
  match tags with
  | [] => none
  | (k', v) :: rest => if k' = k then some v else lookupKey rest k

theorem lookupKey_eq_none_iff (tags : List (String × TagVal)) (k : String) :
    lookupKey tags k = none ↔ k ∉ tags.map Prod.fst := by
  induction tags with
  | nil => simp [lookupKey]
  | cons kv tl ih =>
    obtain ⟨k', v⟩ := kv
    by_cases h : k' = k <;> simp [lookupKey, h, ih]
    exact fun _ he => h he.symm

theorem popKey_none_iff (tags : List (String × TagVal)) (k : String) :
    popKey tags k = none ↔ lookupKey tags k = none := by
  induction tags with
  | nil => simp [popKey, lookupKey]
  | cons kv tl ih =>
    obtain ⟨k', v⟩ := kv
    by_cases h : k' = k
    · simp [popKey, lookupKey, h]
    · simp only [popKey, lookupKey, if_neg h]
      cases hp : popKey tl k with
      | none => rw [hp] at ih; simp [← ih]
      | some pr => rw [hp] at ih; simp [← ih]

theorem popKey_some_spec (tags : List (String × TagVal)) (k : String) (v : TagVal)
    (rest : List (String × TagVal)) (h : popKey tags k = some (v, rest)) :
    lookupKey tags k = some v
    ∧ (∀ k2, k2 ≠ k → lookupKey rest k2 = lookupKey tags k2)
    ∧ ((tags.map Prod.fst).Nodup → lookupKey rest k = none) := by
  induction tags generalizing v rest with
  | nil => simp [popKey] at h
  | cons kv tl ih =>
    obtain ⟨k', w⟩ := kv
    by_cases hk : k' = k
    · subst hk
      simp [popKey] at h
      obtain ⟨hv, hr⟩ := h
      subst hv
      subst hr
      refine ⟨by simp [lookupKey], ?_, ?_⟩
      · intro k2 hk2
        have hne : ¬(k' = k2) := fun he => hk2 he.symm
        simp [lookupKey, hne]
      · intro hnd
        rw [lookupKey_eq_none_iff]
        simp only [List.map_cons, List.nodup_cons] at hnd
        exact hnd.1
    · simp only [popKey, if_neg hk] at h
      cases hp : popKey tl k with
      | none => rw [hp] at h; simp at h
      | some pr =>
        obtain ⟨v', rest'⟩ := pr
        rw [hp] at h
        simp only [Option.some.injEq, Prod.mk.injEq] at h
        obtain ⟨hv, hr⟩ := h
        subst hv
        obtain ⟨ih1, ih2, ih3⟩ := ih v' rest' hp
        subst hr
        refine ⟨by simp [lookupKey, hk]; exact ih1, ?_, ?_⟩
        · intro k2 hk2
          by_cases h2 : k' = k2
          · simp [lookupKey, h2]
          · simp [lookupKey, h2, ih2 k2 hk2]
        · intro hnd
          simp only [List.map_cons, List.nodup_cons] at hnd
          simp [lookupKey, hk, ih3 hnd.2]

theorem filterCandidates_snd (tctx : TagCtx) (p : Project) (eid : Nat)
    (a : FilterArgs) :
    (filterCandidates tctx p eid a).2 =
      match popKey a.tags "environment" with
      | none => a.tags
      | some (_, rest) => rest := by
  unfold filterCandidates
  cases popKey a.tags "environment" with
  | none => rfl
  | some pr =>
    obtain ⟨env, rest⟩ := pr
    dsimp only
    split
    · rfl
    · split <;> first | rfl | (split <;> rfl)

/-- C9: filter_candidates requires the tags mapping to contain the key
'environment' (a missing key raises the key-lookup failure, with the mapping
untouched, before any query runs), and it mutates the caller's mapping:
after a call whose mapping had the key, the environment entry is gone (for a
well-formed mapping with distinct keys) and every other entry is unchanged. -/
theorem c9_filter_candidates_pops_environment (tctx : TagCtx) (p : Project)
    (eid : Nat) (a : FilterArgs) :
    (lookupKey a.tags "environment" = none →
      filterCandidates tctx p eid a = (Except.error (Err.keyError "environment"), a.tags))
    ∧ (∀ env, lookupKey a.tags "environment" = some env →
        (∀ k2, k2 ≠ "environment" →
          lookupKey (filterCandidates tctx p eid a).2 k2 = lookupKey a.tags k2)
        ∧ ((a.tags.map Prod.fst).Nodup →
            lookupKey (filterCandidates tctx p eid a).2 "environment" = none)) := by
  constructor
  · intro h
    have hp : popKey a.tags "environment" = none := (popKey_none_iff _ _).mpr h
    unfold filterCandidates
    rw [hp]
  · intro env h
    cases hp : popKey a.tags "environment" with
    | none => rw [popKey_none_iff] at hp; rw [hp] at h; cases h
    | some pr =>
      obtain ⟨v, rest⟩ := pr
      obtain ⟨h1, h2, h3⟩ := popKey_some_spec a.tags "environment" v rest hp
      have hsnd : (filterCandidates tctx p eid a).2 = rest := by
        rw [filterCandidates_snd, hp]
      rw [hsnd]
      exact ⟨h2, h3⟩

/-- Concrete tag-store fixture: one prod-environment row of group 1. -/
def rowW : GroupTagValue :=
  { project_id := 1, group_id := 1, key := "environment", value := "prod",
    first_seen := 1, last_seen := 2, times_seen := 3 }

/-- Concrete tag-store context around rowW. -/
def tctxW : TagCtx := { rows := [rowW], isPostgres := true }

/-- Concrete filter_candidates arguments: environment entry plus one presence
constraint. -/
def argsW : FilterArgs :=
  { tags := [("environment", TagVal.val "prod"), ("browser", TagVal.ANY)] }

/-- C9 witness: the theorem applied at concrete inputs, discharging the
missing-key hypothesis on an empty mapping and the present-key hypotheses on
argsW. -/
theorem c9_filter_candidates_pops_environment_witness :
    filterCandidates tctxW projA 1 { tags := [] } =
      (Except.error (Err.keyError "environment"), [])
    ∧ lookupKey (filterCandidates tctxW projA 1 argsW).2 "browser" =
        lookupKey argsW.tags "browser"
    ∧ lookupKey (filterCandidates tctxW projA 1 argsW).2 "environment" = none := by
  refine ⟨(c9_filter_candidates_pops_environment tctxW projA 1 { tags := [] }).1 rfl, ?_, ?_⟩
  · exact ((c9_filter_candidates_pops_environment tctxW projA 1 argsW).2
      (TagVal.val "prod") rfl).1 "browser" (by decide)
  · exact ((c9_filter_candidates_pops_environment tctxW projA 1 argsW).2
      (TagVal.val "prod") rfl).2 (by decide)

/-- Concrete tag-store context on a dialect other than Postgres. -/
def tctxOther : TagCtx := { rows := [rowW], isPostgres := false }

/-- C8 counterexample: on a dialect other than Postgres, filter_candidates
called with a tags mapping lacking the environment key raises KeyError, not
NotImplementedError, so the fail-fast claim does not hold for every call. -/
theorem c8_counterexample_keyerror_before_dialect_check :
    (filterCandidates tctxOther projA 1 { tags := [] }).1 =
      Except.error (Err.keyError "environment")
    ∧ Err.keyError "environment" ≠ Err.notImplemented :=
  ⟨rfl, by decide⟩

/-- C8 (amended): find_candidates with a non-None first_release raises
NotImplementedError provided assigned_to and unassigned are not both
supplied (that contract violation fails the assertion first); and
filter_candidates on a dialect other than Postgres raises
NotImplementedError provided its earlier failure points do not fire (the
tags mapping contains the environment key, times_seen is None and sort_by
is a known strategy). -/
theorem c8_amended_not_implemented_fail_fast (ctx : SearchCtx) (tctx : TagCtx)
    (p : Project) (eid : Nat) (f : FindArgs) (a : FilterArgs)
    (hfr : f.first_release.isSome)
    (hna : ¬(f.assigned_to.isSome = true ∧ f.unassigned.isSome = true))
    (henv : (lookupKey a.tags "environment").isSome)
    (hts : a.times_seen = none)
    (hsort : (sort_strategies a.sort_by).isSome)
    (hpg : tctx.isPostgres = false) :
    findCandidates ctx p eid f = Except.error Err.notImplemented
    ∧ (filterCandidates tctx p eid a).1 = Except.error Err.notImplemented := by
  constructor
  · obtain ⟨r, hr⟩ := Option.isSome_iff_exists.mp hfr
    unfold findCandidates
    rw [hr]
    cases hx : f.assigned_to with
    | some u =>
      cases hy : f.unassigned with
      | some b => exact absurd ⟨by rw [hx]; rfl, by rw [hy]; rfl⟩ hna
      | none =>
        dsimp only [assignedStep, Option.isSome]
        rfl
    | none =>
      cases hy : f.unassigned with
      | some b =>
        dsimp only [assignedStep, Option.isSome]
        rfl
      | none =>
        dsimp only [assignedStep, Option.isSome]
        rfl
  · obtain ⟨env, henv1⟩ := Option.isSome_iff_exists.mp henv
    obtain ⟨s, hs⟩ := Option.isSome_iff_exists.mp hsort
    cases hpk : popKey a.tags "environment" with
    | none =>
      rw [popKey_none_iff, henv1] at hpk
      cases hpk
    | some pr =>
      obtain ⟨v, rest⟩ := pr
      unfold filterCandidates
      rw [hpk, hts, hs, hpg]
      rfl

/-- C8 witness: the amended statement at concrete inputs. -/
theorem c8_amended_not_implemented_fail_fast_witness :
    findCandidates ctxA projA 1 { first_release := some "1.0" } =
      Except.error Err.notImplemented
    ∧ (filterCandidates tctxOther projA 1 argsW).1 =
      Except.error Err.notImplemented :=
  c8_amended_not_implemented_fail_fast ctxA tctxOther projA 1 _ _ rfl
    (by decide) rfl rfl rfl rfl

/-- C10 counterexample: a call with a non-None exact times_seen whose tags
mapping lacks the environment key fails with KeyError before reaching the
times_seen attribute failure, so the claim does not hold for every call. -/
theorem c10_counterexample_keyerror_precedes_attribute_error :
    (filterCandidates tctxW projA 1 { times_seen := some 5 }).1 =
      Except.error (Err.keyError "environment")
    ∧ Err.keyError "environment" ≠ Err.attributeError "times_seen" :=
  ⟨rfl, by decide⟩

/-- C10 (amended): for every call with a non-None exact times_seen whose tags
mapping contains the environment key, filter_candidates fails with the
attribute failure (the queryset type has no times_seen method) before any
tag intersection is performed. -/
theorem c10_amended_times_seen_attribute_error (tctx : TagCtx) (p : Project)
    (eid : Nat) (a : FilterArgs) (n : Nat)
    (henv : (lookupKey a.tags "environment").isSome)
    (hts : a.times_seen = some n) :
    (filterCandidates tctx p eid a).1 =
      Except.error (Err.attributeError "times_seen") := by
  obtain ⟨env, henv1⟩ := Option.isSome_iff_exists.mp henv
  cases hpk : popKey a.tags "environment" with
  | none =>
    rw [popKey_none_iff, henv1] at hpk
    cases hpk
  | some pr =>
    obtain ⟨v, rest⟩ := pr
    unfold filterCandidates
    rw [hpk, hts]
    rfl

/-- C10 witness: the amended statement at a concrete input. -/
theorem c10_amended_times_seen_attribute_error_witness :
    (filterCandidates tctxW projA 1 { argsW with times_seen := some 5 }).1 =
      Except.error (Err.attributeError "times_seen") :=
  c10_amended_times_seen_attribute_error tctxW projA 1 _ 5 rfl rfl

theorem rangeFilter_subset {α : Type} {fromv : Option Nat} {fromi : Bool}
    {tov : Option Nat} {toi : Bool} {field : α → Nat} {qs : List α} {g : α}
    (h : g ∈ rangeFilter fromv fromi tov toi field qs) : g ∈ qs := by
  unfold rangeFilter at h
  split at h
  · exact List.mem_of_mem_filter h
  · exact h

theorem timesSeenExact_subset {t? : Option Nat} {qs : List Group} {g : Group}
    (h : g ∈ (match t? with
      | some t => qs.filter (fun x : Group => x.times_seen == t)
      | none => qs)) : g ∈ qs := by
  cases t? with
  | some t => exact List.mem_of_mem_filter h
  | none => exact h

theorem buildAfterTags_mem (ctx : SearchCtx) (p : Project) (a : BuildArgs)
    (qs : List Group) (g : Group) (h : resultMem (buildAfterTags ctx p a qs) g) :
    g ∈ qs := by
  unfold buildAfterTags at h
  dsimp only at h
  split at h
  · simp only [resultMem] at h
    split at h
    on_goal 1 => replace h := List.mem_of_mem_filter h
    all_goals
      replace h := rangeFilter_subset h
      replace h := timesSeenExact_subset h
      replace h := rangeFilter_subset h
      replace h := rangeFilter_subset h
      replace h := rangeFilter_subset h
      exact h
  · simp only [resultMem] at h

theorem buildAfterRelease_empty_matches (ctx : SearchCtx) (p : Project)
    (a : BuildArgs) (qs : List Group) (ht : a.tags ≠ [])
    (hm : ctx.tagMatches p.id a.environment_id a.tags = []) :
    buildAfterRelease ctx p a qs = Except.ok [] := by
  unfold buildAfterRelease
  rw [if_neg (by simpa using ht)]
  dsimp only
  rw [hm]
  rfl

theorem buildAfterRelease_mem_matches (ctx : SearchCtx) (p : Project)
    (a : BuildArgs) (qs : List Group) (g : Group) (ht : a.tags ≠ [])
    (h : resultMem (buildAfterRelease ctx p a qs) g) :
    g.id ∈ ctx.tagMatches p.id a.environment_id a.tags := by
  unfold buildAfterRelease at h
  rw [if_neg (by simpa using ht)] at h
  dsimp only at h
  split at h
  · simp only [resultMem, List.not_mem_nil] at h
  · replace h := buildAfterTags_mem _ _ _ _ _ h
    replace h := List.mem_filter.mp h
    simpa using h.2

/-- C6: for every combination of other predicates, the explicit no-release
sentinel short-circuits _build_queryset to an empty ok page (no later stage,
not even the sort-clause lookup, runs), an empty tag match set likewise
short-circuits to an empty ok page, and a non-empty match set becomes an
id IN (matches) restriction on everything the call returns. -/
theorem c6_empty_by_construction_short_circuits (ctx : SearchCtx) (p : Project)
    (a : BuildArgs) :
    (buildQueryset ctx p { a with first_release := some FirstRelease.EMPTY } =
      Except.ok [])
    ∧ (a.tags ≠ [] → ctx.tagMatches p.id a.environment_id a.tags = [] →
        buildQueryset ctx p a = Except.ok [])
    ∧ (a.tags ≠ [] → ∀ g, resultMem (buildQueryset ctx p a) g →
        g.id ∈ ctx.tagMatches p.id a.environment_id a.tags) := by
  refine ⟨rfl, ?_, ?_⟩
  · intro ht hm
    unfold buildQueryset
    dsimp only
    split
    · split
      · rfl
      · exact buildAfterRelease_empty_matches ctx p a _ ht hm
    · exact buildAfterRelease_empty_matches ctx p a _ ht hm
  · intro ht g hg
    unfold buildQueryset at hg
    dsimp only at hg
    split at hg
    · split at hg
      · simp only [resultMem, List.not_mem_nil] at hg
      · exact buildAfterRelease_mem_matches ctx p a _ g ht hg
    · exact buildAfterRelease_mem_matches ctx p a _ g ht hg

/-- C6 witness: at a concrete input, the sentinel yields the empty page, an
empty match set yields the empty page, and with a non-empty match set every
returned issue id is among the matches. -/
theorem c6_empty_by_construction_short_circuits_witness :
    (buildQueryset ctxA projA
      { ({ tags := [("browser", TagVal.ANY)] } : BuildArgs) with
        first_release := some FirstRelease.EMPTY } = Except.ok [])
    ∧ (buildQueryset ctxA projA { tags := [("browser", TagVal.ANY)] } = Except.ok [])
    ∧ (∀ g, resultMem (buildQueryset ctxA projA { tags := [("browser", TagVal.ANY)] }) g →
        g.id ∈ ctxA.tagMatches projA.id none [("browser", TagVal.ANY)]) := by
  obtain ⟨h1, h2, h3⟩ :=
    c6_empty_by_construction_short_circuits ctxA projA { tags := [("browser", TagVal.ANY)] }
  exact ⟨h1, h2 (by decide) rfl, h3 (by decide)⟩

theorem dateRangeGroupIds_ids (ctx : SearchCtx) (p : Project) (q : Option String)
    (df : Option Nat) (dfi : Bool) (dt : Option Nat) (dti : Bool) :
    (dateRangeGroupIds ctx p q df dfi dt dti).ids =
      (((dateWindowEvents ctx p q df dfi dt dti).map
        (fun e => e.group_id)).dedup).take 1000 := by
  unfold dateRangeGroupIds
  dsimp only
  split <;> rfl

theorem mem_dateWindowEvents (ctx : SearchCtx) (p : Project) (q : Option String)
    (df : Option Nat) (dfi : Bool) (dt : Option Nat) (dti : Bool) (e : Event)
    (h : e ∈ dateWindowEvents ctx p q df dfi dt dti) :
    e ∈ ctx.events ∧ e.project_id = p.id
    ∧ (∀ t, df = some t → (if dfi then t ≤ e.datetime else t < e.datetime))
    ∧ (∀ t, dt = some t → (if dti then e.datetime ≤ t else e.datetime < t))
    ∧ (∀ s, q = some s → s ≠ "" → icontains e.message s = true) := by
  unfold dateWindowEvents at h
  dsimp only at h
  have hbase : e ∈ ctx.events.filter (fun e =>
      e.project_id == p.id
      && (match df with
          | some t => if dfi then decide (t ≤ e.datetime) else decide (t < e.datetime)
          | none => true)
      && (match dt with
          | some t => if dti then decide (e.datetime ≤ t) else decide (e.datetime < t)
          | none => true)) ∧
      (∀ s, q = some s → s ≠ "" → icontains e.message s = true) := by
    split at h
    · rename_i q2 qs
      split at h
      · rename_i hemp
        refine ⟨h, ?_⟩
        intro s2 hs2 hne
        obtain rfl : qs = s2 := by injection hs2
        exact absurd ((String.isEmpty_iff qs).mp hemp) hne
      · obtain ⟨h1, h2⟩ := List.mem_filter.mp h
        refine ⟨h1, ?_⟩
        intro s2 hs2 _
        obtain rfl : qs = s2 := by injection hs2
        exact h2
    · refine ⟨h, ?_⟩
      intro s2 hs2
      cases hs2
  obtain ⟨hbase, hmsg⟩ := hbase
  obtain ⟨hmem, hcond⟩ := List.mem_filter.mp hbase
  simp only [Bool.and_eq_true, beq_iff_eq] at hcond
  obtain ⟨⟨hproj, hfrom⟩, hto⟩ := hcond
  refine ⟨hmem, hproj, ?_, ?_, hmsg⟩
  · intro t ht
    subst ht
    split
    · rename_i hd
      simpa [hd] using hfrom
    · rename_i hd
      simpa [hd] using hfrom
  · intro t ht
    subst ht
    split
    · rename_i hd
      simpa [hd] using hto
    · rename_i hd
      simpa [hd] using hto

/-- C7: the Event-derived identifier set of the date window holds at most
1000 group ids; each of them comes from an event of the project inside the
window (with the free-text filter re-applied to the event message when
present), so the set is a subset of the true unbounded match; when Group and
Event read from different databases, or the engine is MySQL, the set is
materialized to a concrete list before use; and this set is exactly what
_build_queryset uses as its id IN restriction. -/
theorem c7_date_window_cap_subset_and_materialization (ctx : SearchCtx)
    (p : Project) (q : Option String) (df : Option Nat) (dfi : Bool)
    (dt : Option Nat) (dti : Bool) :
    ((dateRangeGroupIds ctx p q df dfi dt dti).ids.length ≤ 1000)
    ∧ (∀ i ∈ (dateRangeGroupIds ctx p q df dfi dt dti).ids,
        ∃ e, e ∈ ctx.events ∧ e.project_id = p.id
          ∧ (∀ t, df = some t → (if dfi then t ≤ e.datetime else t < e.datetime))
          ∧ (∀ t, dt = some t → (if dti then e.datetime ≤ t else e.datetime < t))
          ∧ (∀ s, q = some s → s ≠ "" → icontains e.message s = true)
          ∧ e.group_id = i)
    ∧ (ctx.groupDb ≠ ctx.eventDb ∨ strStartsWith ctx.engine "mysql" = true →
        dateRangeGroupIds ctx p q df dfi dt dti =
          IdSource.materialized ((dateRangeGroupIds ctx p q df dfi dt dti).ids))
    ∧ (∀ T g, resultMem (buildQueryset ctx p { date_from := some T }) g →
        g.id ∈ (dateRangeGroupIds ctx p none (some T) true none true).ids) := by
  refine ⟨?_, ?_, ?_, ?_⟩
  · rw [dateRangeGroupIds_ids]
    simpa using min_le_left 1000 _
  · intro i hi
    rw [dateRangeGroupIds_ids] at hi
    have hi2 := List.take_subset _ _ hi
    rw [List.mem_dedup, List.mem_map] at hi2
    obtain ⟨e, he, rfl⟩ := hi2
    obtain ⟨h1, h2, h3, h4, h5⟩ := mem_dateWindowEvents ctx p q df dfi dt dti e he
    exact ⟨e, h1, h2, h3, h4, h5, rfl⟩
  · intro hc
    unfold dateRangeGroupIds
    dsimp only
    rw [if_pos]
    · rfl
    · rcases hc with hc | hc
      · simp [bne_iff_ne, hc]
      · simp [hc]
  · intro T g hg
    obtain ⟨c, hc⟩ := Option.isSome_iff_exists.mp (engineSortClause_date ctx.engine)
    unfold buildQueryset buildAfterRelease buildAfterTags at hg
    dsimp only at hg
    rw [hc] at hg
    clear hc
    simp only [resultMem] at hg
    have := (List.mem_filter.mp hg).2
    simpa using this

/-- Concrete event fixture inside the date window of the C7 witness. -/
def eventB : Event := { project_id := 1, group_id := 1, datetime := 50, message := "boom" }

/-- Concrete context on MySQL with one event, for the C7 witness. -/
def ctxB : SearchCtx :=
  { groups := [groupA], events := [eventB], subscriptions := [],
    engine := "mysql", groupDb := "default", eventDb := "default",
    tagMatches := fun _ _ _ => [] }

/-- C7 witness: the theorem applied on ctxB with window from 40, discharging
the membership, dialect and result-membership hypotheses concretely. -/
theorem c7_date_window_cap_subset_and_materialization_witness :
    ((dateRangeGroupIds ctxB projA none (some 40) true none true).ids.length ≤ 1000)
    ∧ (∃ e, e ∈ ctxB.events ∧ e.project_id = projA.id
        ∧ (∀ t, (some 40 : Option Nat) = some t → (if true then t ≤ e.datetime else t < e.datetime))
        ∧ (∀ t, (none : Option Nat) = some t → (if true then e.datetime ≤ t else e.datetime < t))
        ∧ (∀ s, (none : Option String) = some s → s ≠ "" → icontains e.message s = true)
        ∧ e.group_id = 1)
    ∧ (dateRangeGroupIds ctxB projA none (some 40) true none true =
        IdSource.materialized ((dateRangeGroupIds ctxB projA none (some 40) true none true).ids))
    ∧ groupA.id ∈ (dateRangeGroupIds ctxB projA none (some 40) true none true).ids := by
  obtain ⟨h1, h2, h3, h4⟩ :=
    c7_date_window_cap_subset_and_materialization ctxB projA none (some 40) true none true
  refine ⟨h1, h2 1 (by decide), h3 (Or.inr (by decide)), ?_⟩
  exact h4 40 groupA (List.mem_singleton_self groupA)

/-- Concrete boundary-issue fixture with the four scalar fields supplied. -/
def boundaryGroup (fs ls aa ts : Nat) : Group :=
  { id := 1, project_id := 1, status := GroupStatus.unresolved, message := "",
    culprit := "", first_seen := fs, last_seen := ls, active_at := aa,
    times_seen := ts, first_release := none, bookmarks := [], assignees := [] }

/-- Concrete single-issue context around a boundary group. -/
def boundaryCtx (g : Group) : SearchCtx :=
  { groups := [g], events := [], subscriptions := [],
    engine := "postgresql_psycopg2", groupDb := "default", eventDb := "default",
    tagMatches := fun _ _ _ => [] }

theorem engineSortClause_pg_date :
    engineSortClause "postgresql_psycopg2" "date" =
      some "EXTRACT(EPOCH FROM last_seen)" := rfl

/-- Concrete boundary tag-value row fixture of the environment path. -/
def boundaryRow (fs ls ts : Nat) : GroupTagValue :=
  { project_id := 1, group_id := 1, key := "environment", value := "prod",
    first_seen := fs, last_seen := ls, times_seen := ts }

/-- C4: every range predicate respects its inclusive/exclusive flag exactly at
the boundary value: an issue whose column equals the bound is in the result
iff the flag is inclusive.  Stated for the eight bounds of _build_queryset
(age, last_seen, active_at, times_seen, from and to each), for
add_scalar_filter generically, and for the environment-path uses of
add_scalar_filter in filter_candidates (age and last_seen bounds of the base
queryset, times_seen bounds). -/
theorem c4_inclusive_exclusive_boundaries (T : Nat) (b : Bool) :
    (resultMem (buildQueryset (boundaryCtx (boundaryGroup T 0 0 0)) projA
      { age_from := some T, age_from_inclusive := b }) (boundaryGroup T 0 0 0) ↔ b = true)
    ∧ (resultMem (buildQueryset (boundaryCtx (boundaryGroup T 0 0 0)) projA
      { age_to := some T, age_to_inclusive := b }) (boundaryGroup T 0 0 0) ↔ b = true)
    ∧ (resultMem (buildQueryset (boundaryCtx (boundaryGroup 0 T 0 0)) projA
      { last_seen_from := some T, last_seen_from_inclusive := b }) (boundaryGroup 0 T 0 0) ↔ b = true)
    ∧ (resultMem (buildQueryset (boundaryCtx (boundaryGroup 0 T 0 0)) projA
      { last_seen_to := some T, last_seen_to_inclusive := b }) (boundaryGroup 0 T 0 0) ↔ b = true)
    ∧ (resultMem (buildQueryset (boundaryCtx (boundaryGroup 0 0 T 0)) projA
      { active_at_from := some T, active_at_from_inclusive := b }) (boundaryGroup 0 0 T 0) ↔ b = true)
    ∧ (resultMem (buildQueryset (boundaryCtx (boundaryGroup 0 0 T 0)) projA
      { active_at_to := some T, active_at_to_inclusive := b }) (boundaryGroup 0 0 T 0) ↔ b = true)
    ∧ (resultMem (buildQueryset (boundaryCtx (boundaryGroup 0 0 0 T)) projA
      { times_seen_lower := some T, times_seen_lower_inclusive := b }) (boundaryGroup 0 0 0 T) ↔ b = true)
    ∧ (resultMem (buildQueryset (boundaryCtx (boundaryGroup 0 0 0 T)) projA
      { times_seen_upper := some T, times_seen_upper_inclusive := b }) (boundaryGroup 0 0 0 T) ↔ b = true)
    ∧ (∀ (α : Type) (qs : List α) (field : α → Nat) (op : ScalarOp) (r : α),
        r ∈ add_scalar_filter qs field op (field r) b ↔ r ∈ qs ∧ b = true)
    ∧ (boundaryRow T 0 0 ∈ fcBaseQueryset { rows := [boundaryRow T 0 0], isPostgres := true }
        projA (TagVal.val "prod") { age_from := some T, age_from_inclusive := b } ↔ b = true)
    ∧ (boundaryRow T 0 0 ∈ fcBaseQueryset { rows := [boundaryRow T 0 0], isPostgres := true }
        projA (TagVal.val "prod") { age_to := some T, age_to_inclusive := b } ↔ b = true)
    ∧ (boundaryRow 0 T 0 ∈ fcBaseQueryset { rows := [boundaryRow 0 T 0], isPostgres := true }
        projA (TagVal.val "prod") { last_seen_from := some T, last_seen_from_inclusive := b } ↔ b = true)
    ∧ (boundaryRow 0 T 0 ∈ fcBaseQueryset { rows := [boundaryRow 0 T 0], isPostgres := true }
        projA (TagVal.val "prod") { last_seen_to := some T, last_seen_to_inclusive := b } ↔ b = true)
    ∧ (boundaryRow 0 0 T ∈ fcTimesSeenBounds
        { times_seen_lower := some T, times_seen_lower_inclusive := b } [boundaryRow 0 0 T] ↔ b = true)
    ∧ (boundaryRow 0 0 T ∈ fcTimesSeenBounds
        { times_seen_upper := some T, times_seen_upper_inclusive := b } [boundaryRow 0 0 T] ↔ b = true) := by
  refine ⟨?_, ?_, ?_, ?_, ?_, ?_, ?_, ?_, ?_, ?_, ?_, ?_, ?_, ?_, ?_⟩
  · unfold buildQueryset buildAfterRelease buildAfterTags
    dsimp only [boundaryCtx, boundaryGroup, projA, filterFreeText, filterStatus,
      filterBookmarked, filterAssignedPrimary, filterSubscribed, truthyFirstRelease,
      Option.isSome]
    rw [engineSortClause_pg_date]
    cases b <;> simp [resultMem, rangeFilter, statusBad, List.mem_filter]
  · unfold buildQueryset buildAfterRelease buildAfterTags
    dsimp only [boundaryCtx, boundaryGroup, projA, filterFreeText, filterStatus,
      filterBookmarked, filterAssignedPrimary, filterSubscribed, truthyFirstRelease,
      Option.isSome]
    rw [engineSortClause_pg_date]
    cases b <;> simp [resultMem, rangeFilter, statusBad, List.mem_filter]
  · unfold buildQueryset buildAfterRelease buildAfterTags
    dsimp only [boundaryCtx, boundaryGroup, projA, filterFreeText, filterStatus,
      filterBookmarked, filterAssignedPrimary, filterSubscribed, truthyFirstRelease,
      Option.isSome]
    rw [engineSortClause_pg_date]
    cases b <;> simp [resultMem, rangeFilter, statusBad, List.mem_filter]
  · unfold buildQueryset buildAfterRelease buildAfterTags
    dsimp only [boundaryCtx, boundaryGroup, projA, filterFreeText, filterStatus,
      filterBookmarked, filterAssignedPrimary, filterSubscribed, truthyFirstRelease,
      Option.isSome]
    rw [engineSortClause_pg_date]
    cases b <;> simp [resultMem, rangeFilter, statusBad, List.mem_filter]
  · unfold buildQueryset buildAfterRelease buildAfterTags
    dsimp only [boundaryCtx, boundaryGroup, projA, filterFreeText, filterStatus,
      filterBookmarked, filterAssignedPrimary, filterSubscribed, truthyFirstRelease,
      Option.isSome]
    rw [engineSortClause_pg_date]
    cases b <;> simp [resultMem, rangeFilter, statusBad, List.mem_filter]
  · unfold buildQueryset buildAfterRelease buildAfterTags
    dsimp only [boundaryCtx, boundaryGroup, projA, filterFreeText, filterStatus,
      filterBookmarked, filterAssignedPrimary, filterSubscribed, truthyFirstRelease,
      Option.isSome]
    rw [engineSortClause_pg_date]
    cases b <;> simp [resultMem, rangeFilter, statusBad, List.mem_filter]
  · unfold buildQueryset buildAfterRelease buildAfterTags
    dsimp only [boundaryCtx, boundaryGroup, projA, filterFreeText, filterStatus,
      filterBookmarked, filterAssignedPrimary, filterSubscribed, truthyFirstRelease,
      Option.isSome]
    rw [engineSortClause_pg_date]
    cases b <;> simp [resultMem, rangeFilter, statusBad, List.mem_filter]
  · unfold buildQueryset buildAfterRelease buildAfterTags
    dsimp only [boundaryCtx, boundaryGroup, projA, filterFreeText, filterStatus,
      filterBookmarked, filterAssignedPrimary, filterSubscribed, truthyFirstRelease,
      Option.isSome]
    rw [engineSortClause_pg_date]
    cases b <;> simp [resultMem, rangeFilter, statusBad, List.mem_filter]
  · intro α qs field op r
    rcases op <;> cases b <;>
      simp [add_scalar_filter, scalarLookup, List.mem_filter]
  · cases b <;>
      simp [fcBaseQueryset, add_scalar_filter, scalarLookup, tagValEq,
        List.mem_filter, boundaryRow, projA]
  · cases b <;>
      simp [fcBaseQueryset, add_scalar_filter, scalarLookup, tagValEq,
        List.mem_filter, boundaryRow, projA]
  · cases b <;>
      simp [fcBaseQueryset, add_scalar_filter, scalarLookup, tagValEq,
        List.mem_filter, boundaryRow, projA]
  · cases b <;>
      simp [fcBaseQueryset, add_scalar_filter, scalarLookup, tagValEq,
        List.mem_filter, boundaryRow, projA]
  · cases b <;>
      simp [fcTimesSeenBounds, add_scalar_filter, scalarLookup, List.mem_filter,
        boundaryRow]
  · cases b <;>
      simp [fcTimesSeenBounds, add_scalar_filter, scalarLookup, List.mem_filter,
        boundaryRow]

/-- C4 witness: the theorem applied at boundary value 5, checking the generic
add_scalar_filter conjunct on a concrete queryset and one inclusive boundary
membership. -/
theorem c4_inclusive_exclusive_boundaries_witness :
    ((3 : Nat) ∈ add_scalar_filter [3] (fun x : Nat => x) ScalarOp.gt 3 true ↔
      (3 : Nat) ∈ [(3 : Nat)] ∧ true = true)
    ∧ (resultMem (buildQueryset (boundaryCtx (boundaryGroup 5 0 0 0)) projA
        { age_from := some 5, age_from_inclusive := true }) (boundaryGroup 5 0 0 0) ↔
        true = true) := by
  obtain ⟨h1, _, _, _, _, _, _, _, h9, _⟩ := c4_inclusive_exclusive_boundaries 5 true
  exact ⟨h9 Nat [3] (fun x => x) ScalarOp.gt 3, h1⟩

/-! Alias distinctness of the synthesized statement. -/

theorem natToStringAux_ne_nil (n : Nat) : natToStringAux n ≠ [] := by
  unfold natToStringAux
  split
  · simp
  · simp

theorem digitChar_fin_inj : ∀ d e : Fin 10, digitChar d.val = digitChar e.val → d = e := by
  decide

theorem digitChar_inj {d e : Nat} (hd : d < 10) (he : e < 10)
    (h : digitChar d = digitChar e) : d = e :=
  congrArg Fin.val (digitChar_fin_inj ⟨d, hd⟩ ⟨e, he⟩ h)

theorem natToStringAux_lt (n : Nat) (h : n < 10) : natToStringAux n = [digitChar n] := by
  conv_lhs => rw [natToStringAux]
  exact dif_pos h

theorem natToStringAux_ge (n : Nat) (h : ¬n < 10) :
    natToStringAux n = natToStringAux (n / 10) ++ [digitChar (n % 10)] := by
  conv_lhs => rw [natToStringAux]
  exact dif_neg h

theorem natToStringAux_inj : ∀ m n : Nat, natToStringAux m = natToStringAux n → m = n := by
  intro m
  induction m using Nat.strong_induction_on with
  | _ m ih =>
    intro n h
    by_cases hm : m < 10 <;> by_cases hn : n < 10
    · rw [natToStringAux_lt m hm, natToStringAux_lt n hn] at h
      exact digitChar_inj hm hn (by injection h)
    · rw [natToStringAux_lt m hm, natToStringAux_ge n hn] at h
      have hlen := congrArg List.length h
      rw [List.length_append, List.length_singleton, List.length_singleton] at hlen
      have h0 : (natToStringAux (n / 10)).length = 0 := by omega
      exact absurd (List.length_eq_zero.mp h0) (natToStringAux_ne_nil (n / 10))
    · rw [natToStringAux_ge m hm, natToStringAux_lt n hn] at h
      have hlen := congrArg List.length h
      rw [List.length_append, List.length_singleton, List.length_singleton] at hlen
      have h0 : (natToStringAux (m / 10)).length = 0 := by omega
      exact absurd (List.length_eq_zero.mp h0) (natToStringAux_ne_nil (m / 10))
    · rw [natToStringAux_ge m hm, natToStringAux_ge n hn] at h
      obtain ⟨h1, h2⟩ := List.append_inj' h (by simp)
      have e1 : m / 10 = n / 10 :=
        ih (m / 10) (Nat.div_lt_self (by omega) (by omega)) (n / 10) h1
      have e2 : m % 10 = n % 10 :=
        digitChar_inj (Nat.mod_lt _ (by omega)) (Nat.mod_lt _ (by omega)) (by injection h2)
      omega

theorem natToString_inj {m n : Nat} (h : natToString m = natToString n) : m = n :=
  natToStringAux_inj m n (congrArg String.data h)

theorem string_append_left_cancel {s a b : String} (h : s ++ a = s ++ b) : a = b := by
  apply String.ext
  have h2 := congrArg String.data h
  rw [String.data_append, String.data_append] at h2
  exact List.append_cancel_left h2

theorem lateralAlias_inj : Function.Injective lateralAlias := fun _ _ h =>
  natToString_inj (string_append_left_cancel h)

theorem joinAlias_inj : Function.Injective joinAlias := fun _ _ h =>
  natToString_inj (string_append_left_cancel h)

theorem lateralAlias_ne_joinAlias (i j : Nat) : lateralAlias i ≠ joinAlias j := by
  intro h
  have hd := congrArg String.data h
  rw [lateralAlias, joinAlias, String.data_append, String.data_append] at hd
  have e1 : ("grouptagvalue_lateral_".data ++ (natToString i).data)[14]? = some 'l' := by
    rw [List.getElem?_append_left (by decide)]
    rfl
  have e2 : ("grouptagvalue_join_".data ++ (natToString j).data)[14]? = some 'j' := by
    rw [List.getElem?_append_left (by decide)]
    rfl
  rw [hd, e2] at e1
  exact absurd e1 (by decide)

theorem candidates_ne_lateralAlias (i : Nat) : "candidates" ≠ lateralAlias i := by
  intro h
  have hlen := congrArg String.length h
  rw [lateralAlias, String.length_append,
    show ("candidates" : String).length = 10 from rfl,
    show ("grouptagvalue_lateral_" : String).length = 22 from rfl] at hlen
  omega

theorem candidates_ne_joinAlias (i : Nat) : "candidates" ≠ joinAlias i := by
  intro h
  have hlen := congrArg String.length h
  rw [joinAlias, String.length_append,
    show ("candidates" : String).length = 10 from rfl,
    show ("grouptagvalue_join_" : String).length = 19 from rfl] at hlen
  omega

theorem statementAliases_nodup (nP nJ : Nat) : (statementAliases nP nJ).Nodup := by
  unfold statementAliases
  rw [List.nodup_cons]
  constructor
  · intro hmem
    rw [List.mem_append] at hmem
    rcases hmem with hm | hm <;> rw [List.mem_map] at hm <;> obtain ⟨i, _, hi⟩ := hm
    · exact candidates_ne_lateralAlias i hi.symm
    · exact candidates_ne_joinAlias i hi.symm
  · refine List.Nodup.append (List.Nodup.map lateralAlias_inj (List.nodup_range nP))
      (List.Nodup.map joinAlias_inj (List.nodup_range nJ)) ?_
    intro x hx hy
    rw [List.mem_map] at hx hy
    obtain ⟨i, _, rfl⟩ := hx
    obtain ⟨j, _, hj⟩ := hy
    exact lateralAlias_ne_joinAlias i j hj.symm

theorem joinTuples_ne_nil_iff (db : List GroupTagValue) (g : Nat)
    (spec : List (String × String)) :
    joinTuples db g spec ≠ [] ↔ ∀ kv ∈ spec, joinMatches db g kv ≠ [] := by
  induction spec with
  | nil => simp [joinTuples]
  | cons kv tl ih =>
    rw [List.forall_mem_cons, ← ih]
    constructor
    · intro h
      constructor
      · intro hm
        apply h
        simp [joinTuples, hm]
      · intro ht
        apply h
        simp [joinTuples, ht]
    · rintro ⟨h1, h2⟩ hflat
      unfold joinTuples at hflat
      rw [List.flatMap_eq_nil_iff] at hflat
      obtain ⟨r, hr⟩ := List.exists_mem_of_ne_nil _ h1
      have := hflat r hr
      rw [List.map_eq_nil_iff] at this
      exact h2 this

theorem mem_evalStmtRows {db base : List GroupTagValue} {presence : List String}
    {spec : List (String × String)} {keyf : GroupTagValue → Int} {r : GroupTagValue} :
    r ∈ evalStmtRows db base presence spec keyf ↔
      r ∈ base ∧ (∀ k ∈ presence, hasTagKey db r.group_id k = true)
        ∧ (∀ kv ∈ spec, joinMatches db r.group_id kv ≠ []) := by
  unfold evalStmtRows
  rw [List.mem_mergeSort, List.mem_flatMap]
  constructor
  · rintro ⟨c, hc, hr⟩
    split at hr
    · rename_i hall
      rw [List.mem_map] at hr
      obtain ⟨t, ht, rfl⟩ := hr
      refine ⟨hc, ?_, ?_⟩
      · intro k hk
        exact List.all_eq_true.mp hall k hk
      · intro kv hkv
        have hne : joinTuples db c.group_id spec ≠ [] := List.ne_nil_of_mem ht
        exact (joinTuples_ne_nil_iff db c.group_id spec).mp hne kv hkv
    · cases hr
  · rintro ⟨hb, hall, hjoin⟩
    refine ⟨r, hb, ?_⟩
    rw [if_pos (List.all_eq_true.mpr fun k hk => hall k hk)]
    rw [List.mem_map]
    have hne : joinTuples db r.group_id spec ≠ [] :=
      (joinTuples_ne_nil_iff db r.group_id spec).mpr hjoin
    obtain ⟨t, ht⟩ := List.exists_mem_of_ne_nil _ hne
    exact ⟨t, ht, rfl⟩

theorem evalStmtRows_sorted (db base : List GroupTagValue) (presence : List String)
    (spec : List (String × String)) (keyf : GroupTagValue → Int) :
    ((evalStmtRows db base presence spec keyf).map keyf).Pairwise (fun x y => y ≤ x) := by
  unfold evalStmtRows
  rw [List.pairwise_map]
  have hs := @List.sorted_mergeSort _ (fun a b => decide (keyf b ≤ keyf a))
    (fun a b c hab hbc => by
      simp only [decide_eq_true_eq] at hab hbc ⊢
      exact le_trans hbc hab)
    (fun a b => by
      simp only [Bool.or_eq_true, decide_eq_true_eq]
      exact le_total (keyf b) (keyf a))
    (base.flatMap (fun c =>
      if presence.all (fun k => hasTagKey db c.group_id k) then
        (joinTuples db c.group_id spec).map (fun _ => c)
      else []))
  exact List.Pairwise.imp (fun h => by simpa using h) hs

/-- C1: on the Postgres path, the statement synthesized by filter_candidates
for a candidate set, an environment value, and presence plus equality tag
constraints returns exactly the group ids that are in the candidate set,
carry the project's environment tag, have at least one row for every
presence key and a matching (key, value) row for every equality constraint;
the returned rows are ordered by the computed sort_key (the date score, the
last_seen column) descending; and no table alias of the statement is ever
used twice. -/
theorem c1_tag_intersection_compiler (tctx : TagCtx) (p : Project) (eid : Nat)
    (cs : List Nat) (env : String) (rest : List (String × TagVal))
    (hpg : tctx.isPostgres = true) :
    ∃ rows : List GroupTagValue,
      (filterCandidates tctx p eid
        { candidates := some cs,
          tags := ("environment", TagVal.val env) :: rest }).1 =
        Except.ok (rows.map (fun r => r.group_id))
      ∧ (∀ g, g ∈ rows.map (fun r => r.group_id) ↔
          (g ∈ cs
           ∧ (∃ r, r ∈ tctx.rows ∧ r.project_id = p.id ∧ r.key = "environment"
               ∧ r.value = env ∧ r.group_id = g)
           ∧ (∀ k ∈ presenceTags rest, ∃ r, r ∈ tctx.rows ∧ r.group_id = g ∧ r.key = k)
           ∧ (∀ kv ∈ specificTags rest, ∃ r, r ∈ tctx.rows ∧ r.group_id = g
               ∧ r.key = kv.1 ∧ r.value = kv.2)))
      ∧ ((rows.map (fun r => evalSortKey "last_seen" r)).Pairwise (fun x y => y ≤ x))
      ∧ (statementAliases (presenceTags rest).length (specificTags rest).length).Nodup := by
  refine ⟨evalStmtRows tctx.rows
    (fcBaseQueryset tctx p (TagVal.val env)
      { candidates := some cs, tags := ("environment", TagVal.val env) :: rest })
    (presenceTags rest) (specificTags rest) (fun r => evalSortKey "last_seen" r),
    ?_, ?_, evalStmtRows_sorted _ _ _ _ _, statementAliases_nodup _ _⟩
  · have hpop : popKey (("environment", TagVal.val env) :: rest) "environment" =
        some (TagVal.val env, rest) := by simp [popKey]
    unfold filterCandidates
    dsimp only
    rw [hpop]
    dsimp only
    rw [hpg]
    rfl
  · intro g
    rw [List.mem_map]
    constructor
    · rintro ⟨r, hr, rfl⟩
      rw [mem_evalStmtRows] at hr
      obtain ⟨hb, hall, hjoin⟩ := hr
      have hb2 : r ∈ (tctx.rows.filter (fun r =>
          r.project_id == p.id && r.key == "environment"
            && tagValEq (TagVal.val env) r.value)).filter
          (fun r => decide (r.group_id ∈ cs)) := hb
      rw [List.mem_filter, List.mem_filter] at hb2
      obtain ⟨⟨hmem, hcond⟩, hcs⟩ := hb2
      simp only [Bool.and_eq_true, beq_iff_eq, tagValEq, decide_eq_true_eq] at hcond hcs
      refine ⟨hcs, ⟨r, hmem, hcond.1.1, hcond.1.2, hcond.2.symm, rfl⟩, ?_, ?_⟩
      · intro k hk
        have := hall k hk
        unfold hasTagKey at this
        rw [List.any_eq_true] at this
        obtain ⟨r2, hr2, hc2⟩ := this
        simp only [Bool.and_eq_true, beq_iff_eq] at hc2
        exact ⟨r2, hr2, hc2.1, hc2.2⟩
      · intro kv hkv
        have := hjoin kv hkv
        obtain ⟨r2, hr2⟩ := List.exists_mem_of_ne_nil _ this
        unfold joinMatches at hr2
        rw [List.mem_filter] at hr2
        obtain ⟨hr2m, hc2⟩ := hr2
        simp only [Bool.and_eq_true, beq_iff_eq] at hc2
        exact ⟨r2, hr2m, hc2.1.1, hc2.1.2, hc2.2⟩
    · rintro ⟨hcs, ⟨r0, hr0, hproj, hkey, hval, hgid⟩, hpres, hspec⟩
      refine ⟨r0, ?_, hgid⟩
      rw [mem_evalStmtRows]
      refine ⟨?_, ?_, ?_⟩
      · show r0 ∈ (tctx.rows.filter (fun r =>
          r.project_id == p.id && r.key == "environment"
            && tagValEq (TagVal.val env) r.value)).filter
          (fun r => decide (r.group_id ∈ cs))
        rw [List.mem_filter, List.mem_filter]
        refine ⟨⟨hr0, ?_⟩, ?_⟩
        · simp only [Bool.and_eq_true, beq_iff_eq, tagValEq, decide_eq_true_eq]
          exact ⟨⟨hproj, hkey⟩, hval.symm⟩
        · simp only [decide_eq_true_eq]
          rw [hgid]
          exact hcs
      · intro k hk
        obtain ⟨r2, hr2, hg2, hk2⟩ := hpres k hk
        unfold hasTagKey
        rw [List.any_eq_true]
        refine ⟨r2, hr2, ?_⟩
        simp only [Bool.and_eq_true, beq_iff_eq]
        exact ⟨by rw [hg2, hgid], hk2⟩
      · intro kv hkv
        obtain ⟨r2, hr2, hg2, hk2, hv2⟩ := hspec kv hkv
        apply List.ne_nil_of_mem (a := r2)
        unfold joinMatches
        rw [List.mem_filter]
        refine ⟨hr2, ?_⟩
        simp only [Bool.and_eq_true, beq_iff_eq]
        exact ⟨⟨by rw [hg2, hgid], hk2⟩, hv2⟩

/-- C1 witness: the theorem applied at a concrete one-row tag store with
candidate set containing group 1 and no extra constraints. -/
theorem c1_tag_intersection_compiler_witness :
    ∃ rows : List GroupTagValue,
      (filterCandidates tctxW projA 1
        { candidates := some [1], tags := [("environment", TagVal.val "prod")] }).1 =
        Except.ok (rows.map (fun r => r.group_id))
      ∧ (∀ g, g ∈ rows.map (fun r => r.group_id) ↔
          (g ∈ [1]
           ∧ (∃ r, r ∈ tctxW.rows ∧ r.project_id = projA.id ∧ r.key = "environment"
               ∧ r.value = "prod" ∧ r.group_id = g)
           ∧ (∀ k ∈ presenceTags ([] : List (String × TagVal)),
               ∃ r, r ∈ tctxW.rows ∧ r.group_id = g ∧ r.key = k)
           ∧ (∀ kv ∈ specificTags ([] : List (String × TagVal)),
               ∃ r, r ∈ tctxW.rows ∧ r.group_id = g ∧ r.key = kv.1 ∧ r.value = kv.2)))
      ∧ ((rows.map (fun r => evalSortKey "last_seen" r)).Pairwise (fun x y => y ≤ x))
      ∧ (statementAliases (presenceTags ([] : List (String × TagVal))).length
          (specificTags ([] : List (String × TagVal))).length).Nodup :=
  c1_tag_intersection_compiler tctxW projA 1 [1] "prod" [] rfl

theorem specificParams_length (l : List (String × String)) :
    (l.flatMap (fun kv => [SqlParam.str kv.1, SqlParam.str kv.2])).length =
      2 * l.length := by
  induction l with
  | nil => rfl
  | cons kv tl ih =>
    simp only [List.flatMap_cons, List.length_append, List.length_cons, ih,
      List.length_nil]
    omega

theorem candidateQueryParams_length_env (p : Project) (env1 env2 : TagVal)
    (a : FilterArgs) :
    (candidateQueryParams p env1 a).length = (candidateQueryParams p env2 a).length := by
  unfold candidateQueryParams
  simp [List.length_append]

/-- C3: injection safety as a hyperproperty of the synthesized statement: two
calls that share a shape (the same optional arguments, the same candidate
set, the same number of presence and of equality tag constraints) but carry
arbitrary different key, value and environment strings produce an identical
SQL text — the strings travel exclusively in the bound parameter list, whose
length also agrees. -/
theorem c3_same_shape_same_sql_text (p : Project) (a : FilterArgs)
    (sortExpr : String) (env1 env2 : TagVal) (t1 t2 : List (String × TagVal))
    (hp : (presenceTags t1).length = (presenceTags t2).length)
    (hs : (specificTags t1).length = (specificTags t2).length) :
    fcStatementText a sortExpr (presenceTags t1).length (specificTags t1).length =
      fcStatementText a sortExpr (presenceTags t2).length (specificTags t2).length
    ∧ (fcStatementParams p env1 a (presenceTags t1) (specificTags t1)).length =
      (fcStatementParams p env2 a (presenceTags t2) (specificTags t2)).length := by
  constructor
  · rw [hp, hs]
  · unfold fcStatementParams
    rw [List.length_append, List.length_append, List.length_append, List.length_append,
      specificParams_length, specificParams_length, List.length_map, List.length_map,
      hp, hs, candidateQueryParams_length_env p env1 env2 a]

/-- C3 witness: two same-shape calls with entirely different key, value and
environment strings, checked to produce the same statement text and
parameter-list length. -/
theorem c3_same_shape_same_sql_text_witness :
    fcStatementText {} "last_seen"
        (presenceTags [("browser", TagVal.ANY), ("release", TagVal.val "1.0")]).length
        (specificTags [("browser", TagVal.ANY), ("release", TagVal.val "1.0")]).length =
      fcStatementText {} "last_seen"
        (presenceTags [("os", TagVal.ANY), ("server", TagVal.val "2.0")]).length
        (specificTags [("os", TagVal.ANY), ("server", TagVal.val "2.0")]).length
    ∧ (fcStatementParams projA (TagVal.val "prod") {}
        (presenceTags [("browser", TagVal.ANY), ("release", TagVal.val "1.0")])
        (specificTags [("browser", TagVal.ANY), ("release", TagVal.val "1.0")])).length =
      (fcStatementParams projA (TagVal.val "staging") {}
        (presenceTags [("os", TagVal.ANY), ("server", TagVal.val "2.0")])
        (specificTags [("os", TagVal.ANY), ("server", TagVal.val "2.0")])).length :=
  c3_same_shape_same_sql_text projA {} "last_seen" (TagVal.val "prod")
    (TagVal.val "staging")
    [("browser", TagVal.ANY), ("release", TagVal.val "1.0")]
    [("os", TagVal.ANY), ("server", TagVal.val "2.0")]
    (by decide) (by decide)

end Sentry
